import Mathlib

/-!
Shallow embedding of the core of `src/library_manager.py` ("Library Quest"):
the `LibraryManager` class, its book collection, user progress state, and the
operations `_load_library`, `add_book`, `remove_book`, `update_progress`,
`_update_reading_streak`, `_update_monthly_goal`, `get_achievements`.

Modelling conventions:
- Python ints are `Int` (arbitrary precision in Python, so no wrapping).
- Calendar dates are day numbers (`Int`); "one calendar day later" is `+ 1`.
  Calendar months are `Int` (Python's `datetime.now().month`).
- `datetime.now()` is passed in explicitly: `today` (day number) for the
  streak logic, `currentMonth` for the monthly-goal logic, `currentYear`
  for `VALID_YEARS`, and `nowIso` (a string) for `added_date`.
- The `rating` float is carried opaquely, never computed with; it is
  modelled as `Option Rat` so equality stays decidable.
- File writes (`_save_library`, `_save_user_data`) are modelled as counters
  in the state (`library_saves`, `user_saves`); a completion event
  (the `read = True` block of `update_progress`) bumps `completions`.
-/

/-- A book record, as built by `add_book` (lines 97-109 of the source). -/
structure Book where
  id : Int
  title : String
  author : String
  year : Int
  genre : String
  read : Bool
  rating : Option Rat
  notes : String
  added_date : String
  progress : Int
  cover_image : Option String
deriving DecidableEq, Repr

/-- A record as it sits in the persisted library file: `notes`, `progress`
and `cover_image` may be absent and are defaulted by `_load_library`
(lines 54-57: `setdefault("notes", "")`, `setdefault("progress", 0)`,
`setdefault("cover_image", None)`; an absent or null `cover_image` both
load as `none`). -/
structure RawBook where
  id : Int
  title : String
  author : String
  year : Int
  genre : String
  read : Bool
  rating : Option Rat
  notes : Option String
  added_date : String
  progress : Option Int
  cover_image : Option String
deriving DecidableEq, Repr

/-- `_load_library`'s per-record defaulting (lines 54-57). -/
def load_book (r : RawBook) : Book :=
  { id := r.id, title := r.title, author := r.author, year := r.year,
    genre := r.genre, read := r.read, rating := r.rating,
    notes := r.notes.getD "", added_date := r.added_date,
    progress := r.progress.getD 0, cover_image := r.cover_image }

/-- `_load_library` (lines 48-61): a missing/unparsable file or a non-list
document (`none` here) yields the empty collection; otherwise every record
is defaulted. -/
def load_library : Option (List RawBook) → List Book
  | none => []
  | some data => data.map load_book

/-- The user-progress state (`user_data`, lines 68-74).
`last_reading_date` is a day number or absent (`None` in the file). -/
structure UserData where
  reading_streak : Int
  last_reading_date : Option Int
  monthly_goal : Int
  books_read_this_month : Int
  month : Int
deriving DecidableEq, Repr

/-- The whole in-memory `LibraryManager` state, plus instrumentation:
`library_saves` counts `_save_library` calls, `user_saves` counts
`_save_user_data` calls, and `completions` counts completion events
(executions of the `read = True` block in `update_progress`). -/
structure LMState where
  library : List Book
  user_data : UserData
  library_saves : Nat
  user_saves : Nat
  completions : Nat
deriving DecidableEq, Repr

/-- Python's `str.strip()`: drop leading and trailing whitespace. Defined
by structural recursion so that concrete inputs evaluate. -/
def pyStrip (s : String) : String :=
  ⟨((s.data.dropWhile Char.isWhitespace).reverse.dropWhile
      Char.isWhitespace).reverse⟩

/-- The record literal `add_book` builds (lines 97-109). -/
def newBook (s : LMState) (title author : String) (year : Int)
    (genre : String) (read : Bool) (rating : Option Rat) (notes : String)
    (cover_image : Option String) (nowIso : String) : Book :=
  { id := (s.library.length : Int) + 1, title := pyStrip title,
    author := pyStrip author, year := year, genre := genre, read := read,
    rating := rating, notes := notes, added_date := nowIso, progress := 0,
    cover_image := cover_image }

/-- `add_book` (lines 92-112). Validation (line 94):
`not all([title.strip(), author.strip(), year in VALID_YEARS])` with
`VALID_YEARS = range(1000, currentYear + 1)`. On success the record gets
`id = len(library) + 1`, `progress = 0`, and is appended; the library is
saved. On failure nothing changes and nothing is saved. -/
def add_book (s : LMState) (title author : String) (year : Int) (genre : String)
    (read : Bool) (rating : Option Rat) (notes : String)
    (cover_image : Option String) (currentYear : Int) (nowIso : String) :
    LMState × Bool :=
  if pyStrip title = "" ∨ pyStrip author = "" ∨
      ¬(1000 ≤ year ∧ year ≤ currentYear) then
    (s, false)
  else
    ({ s with
        library := s.library ++
          [newBook s title author year genre read rating notes cover_image
            nowIso],
        library_saves := s.library_saves + 1 }, true)

/-- `remove_book` (lines 114-120): rebuilds the list without every record
whose id matches, saves only if the length shrank, and reports whether
anything was removed. -/
def remove_book (s : LMState) (book_id : Int) : LMState × Bool :=
  let newLib := s.library.filter (fun b => !(b.id == book_id))
  if newLib.length < s.library.length then
    ({ s with library := newLib, library_saves := s.library_saves + 1 }, true)
  else
    ({ s with library := newLib }, false)

/-- The per-record effect of `update_progress` on the first matching book
(lines 125-127): store the clamped progress, and set `read` when the RAW
argument equals 100 and the book was unread. -/
def updBook (b : Book) (progress : Int) : Book :=
  let b1 : Book := { b with progress := min 100 (max 0 progress) }
  if progress = 100 ∧ b.read = false then { b1 with read := true } else b1

/-- The loop of `update_progress` (lines 123-132) over the collection:
returns the new collection, whether a record with the id was found, and
whether the completion block ran. Only the FIRST matching record is
touched, because the Python loop returns inside its body. -/
def update_progress_list : List Book → Int → Int → List Book × Bool × Bool
  | [], _, _ => ([], false, false)
  | b :: rest, book_id, progress =>
    if b.id = book_id then
      (updBook b progress :: rest, true, (progress == 100) && !b.read)
    else
      let r := update_progress_list rest book_id progress
      (b :: r.1, r.2.1, r.2.2)

/-- `_update_reading_streak` (lines 134-148). The returned `Bool` records
whether `_save_user_data` ran (the same-day branch returns before saving
and before touching `last_reading_date`). -/
def update_reading_streak (u : UserData) (today : Int) : UserData × Bool :=
  match u.last_reading_date with
  | some last =>
      if today = last then (u, false)
      else if today = last + 1 then
        ({ u with reading_streak := u.reading_streak + 1,
                  last_reading_date := some today }, true)
      else
        ({ u with reading_streak := 1, last_reading_date := some today }, true)
  | none =>
      ({ u with reading_streak := 1, last_reading_date := some today }, true)

/-- `_update_monthly_goal` (lines 150-156): on a month rollover, zero the
counter and adopt the current month; then increment. It always saves
(counted by the caller). -/
def update_monthly_goal (u : UserData) (currentMonth : Int) : UserData :=
  let u1 : UserData :=
    if u.month ≠ currentMonth then
      { u with books_read_this_month := 0, month := currentMonth }
    else u
  { u1 with books_read_this_month := u1.books_read_this_month + 1 }

/-- `update_progress` (lines 122-132): on a found record, apply the list
update; when the completion block ran, also run the streak and monthly
updates on the user data (each of which saves user data — the streak one
skips its save on the same-day early return) and count one completion.
The library is saved exactly when a record was found. -/
def update_progress (s : LMState) (book_id progress today currentMonth : Int) :
    LMState × Bool :=
  let r := update_progress_list s.library book_id progress
  if r.2.1 then
    if r.2.2 then
      let us := update_reading_streak s.user_data today
      let u2 := update_monthly_goal us.1 currentMonth
      ({ s with library := r.1, user_data := u2,
                user_saves := s.user_saves + (if us.2 then 1 else 0) + 1,
                library_saves := s.library_saves + 1,
                completions := s.completions + 1 }, true)
    else
      ({ s with library := r.1,
                library_saves := s.library_saves + 1 }, true)
  else (s, false)

/-- `set_monthly_goal` (lines 158-160). -/
def set_monthly_goal (s : LMState) (goal : Int) : LMState :=
  { s with user_data := { s.user_data with monthly_goal := max 0 goal },
           user_saves := s.user_saves + 1 }

/-- The `ACHIEVEMENTS` table (lines 19-23), in its declared (insertion)
order: name, threshold, icon. -/
def ACHIEVEMENTS : List (String × Nat × String) :=
  [("Novice Reader", 5, "🏆"), ("Book Worm", 20, "🐛"),
   ("Literary Master", 50, "📚")]

/-- `get_achievements` (lines 162-168): walks the table in order and keeps
`icon ++ " " ++ name` for every threshold met by the TOTAL record count. -/
def get_achievements (s : LMState) : List String :=
  ACHIEVEMENTS.filterMap (fun c =>
    if c.2.1 ≤ s.library.length then some (c.2.2 ++ " " ++ c.1) else none)

/-- The read-only snapshot of the collection: the UI iterates
`manager.library` directly (lines 381-383), in insertion order. -/
def listAll (s : LMState) : List Book := s.library

/-- First record with a given id, exactly the lookup order of the loops in
`update_progress` and of the UI. -/
def findBook (s : LMState) (book_id : Int) : Option Book :=
  s.library.find? (fun b => b.id == book_id)

/-- The spec's record invariant: `progress == 100` implies `read == true`. -/
def bookInv (b : Book) : Prop := b.progress = 100 → b.read = true

instance (b : Book) : Decidable (bookInv b) := by unfold bookInv; infer_instance

/-- The invariant over the whole collection. -/
def libInv (lib : List Book) : Prop := ∀ b ∈ lib, bookInv b

instance (lib : List Book) : Decidable (libInv lib) := by
  unfold libInv; infer_instance

/-! ## Concrete states for witnesses and counterexamples -/

/-- The spec's §8 concrete scenario book: "Dune" by Herbert, 1965, Sci-Fi,
unread. -/
def bookA : Book :=
  { id := 1, title := "Dune", author := "Herbert", year := 1965,
    genre := "Sci-Fi", read := false, rating := none, notes := "",
    added_date := "d0", progress := 0, cover_image := none }

/-- Fresh user data, as `_load_user_data` initializes it on a first run. -/
def userData0 : UserData :=
  { reading_streak := 0, last_reading_date := none, monthly_goal := 0,
    books_read_this_month := 0, month := 1 }

/-- A state holding exactly the one unread book `bookA`. -/
def state1 : LMState :=
  { library := [bookA], user_data := userData0, library_saves := 0,
    user_saves := 0, completions := 0 }

/-- The empty first-run state. -/
def emptyState : LMState :=
  { library := [], user_data := userData0, library_saves := 0,
    user_saves := 0, completions := 0 }

/-- A state REACHED BY OPERATIONS ALONE in which two records share id 2:
add two books (ids 1, 2), remove id 1, then add again — the new book gets
id `len + 1 = 2`, colliding with the survivor (the §9 length-derived-id
defect). -/
def dupState : LMState :=
  (add_book
    (remove_book
      (add_book
        (add_book emptyState "A" "A1" 2000 "Fiction" false none "" none
          2020 "t1").1
        "B" "B1" 2001 "Fiction" false none "" none 2020 "t2").1
      1).1
    "C" "C1" 2002 "Fiction" false none "" none 2020 "t3").1

/-! ## Helper lemmas -/

theorem updBook_id (b : Book) (p : Int) : (updBook b p).id = b.id := by
  unfold updBook; split <;> rfl

theorem updBook_progress (b : Book) (p : Int) :
    (updBook b p).progress = min 100 (max 0 p) := by
  unfold updBook; split <;> rfl

theorem updBook_read (b : Book) (p : Int) :
    (updBook b p).read = (b.read || (p == 100)) := by
  unfold updBook
  split
  · rename_i h
    simp [h.1, h.2]
  · rename_i h
    rcases Decidable.em (b.read = true) with hr | hr
    · simp [hr]
    · have hp : ¬ p = 100 := fun hp => h ⟨hp, by simpa using hr⟩
      simp [hp, Bool.eq_false_iff.2 hr]

theorem updBook_frame (b : Book) (p : Int) :
    (updBook b p).title = b.title ∧ (updBook b p).author = b.author ∧
    (updBook b p).year = b.year ∧ (updBook b p).genre = b.genre ∧
    (updBook b p).rating = b.rating ∧ (updBook b p).notes = b.notes ∧
    (updBook b p).added_date = b.added_date ∧
    (updBook b p).cover_image = b.cover_image := by
  unfold updBook; split <;> exact ⟨rfl, rfl, rfl, rfl, rfl, rfl, rfl, rfl⟩

/-- With a raw argument at most 100, the updated record satisfies the
invariant outright (for larger raw arguments it need not: the raw value,
not the clamped one, gates the `read` flag). -/
theorem updBook_inv (b : Book) (p : Int) (hp : p ≤ 100) :
    bookInv (updBook b p) := by
  intro hprog
  rw [updBook_read]
  rcases Decidable.em (p = 100) with h100 | h100
  · simp [h100]
  · exfalso
    rw [updBook_progress] at hprog
    have : max 0 p < 100 := by omega
    omega

/-- Case analysis of the `update_progress` loop: either no record matches
and nothing happens, or the collection splits around the FIRST match,
which alone is rewritten. -/
theorem upl_cases (lib : List Book) (i p : Int) :
    ((∀ b ∈ lib, b.id ≠ i) ∧ update_progress_list lib i p = (lib, false, false))
    ∨ (∃ pre b suf, lib = pre ++ b :: suf ∧ (∀ x ∈ pre, x.id ≠ i) ∧ b.id = i ∧
        update_progress_list lib i p =
          (pre ++ updBook b p :: suf, true, (p == 100) && !b.read)) := by
  induction lib with
  | nil => exact Or.inl ⟨by simp, rfl⟩
  | cons b rest ih =>
    by_cases hb : b.id = i
    · exact Or.inr ⟨[], b, rest, by simp, by simp, hb,
        by simp [update_progress_list, hb]⟩
    · rcases ih with ⟨hall, heq⟩ | ⟨pre, c, suf, hd, hp, hc, heq⟩
      · refine Or.inl ⟨?_, ?_⟩
        · intro x hx
          rcases List.mem_cons.1 hx with rfl | hx
          · exact hb
          · exact hall x hx
        · simp [update_progress_list, hb, heq]
      · refine Or.inr ⟨b :: pre, c, suf, by simp [hd], ?_, hc, ?_⟩
        · intro x hx
          rcases List.mem_cons.1 hx with rfl | hx
          · exact hb
          · exact hp x hx
        · simp [update_progress_list, hb, heq]

/-- `find?` on a split list whose prefix has no match returns the pivot. -/
theorem find?_decomp (pre : List Book) (b : Book) (suf : List Book) (i : Int)
    (hpre : ∀ x ∈ pre, x.id ≠ i) (hb : b.id = i) :
    (pre ++ b :: suf).find? (fun x => x.id == i) = some b := by
  induction pre with
  | nil => simp [List.find?, hb]
  | cons x xs ih =>
    have hx : x.id ≠ i := hpre x (by simp)
    have : (x.id == i) = false := by simpa using hx
    simp only [List.cons_append, List.find?, this]
    exact ih (fun y hy => hpre y (by simp [hy]))

/-- When `find?` locates a record, the loop splits the collection around
exactly that record. -/
theorem upl_found (lib : List Book) (i p : Int) (b : Book)
    (h : lib.find? (fun x => x.id == i) = some b) :
    ∃ pre suf, lib = pre ++ b :: suf ∧ (∀ x ∈ pre, x.id ≠ i) ∧ b.id = i ∧
      update_progress_list lib i p =
        (pre ++ updBook b p :: suf, true, (p == 100) && !b.read) := by
  rcases upl_cases lib i p with ⟨hall, _⟩ | ⟨pre, c, suf, hd, hp, hc, heq⟩
  · exfalso
    have hn : lib.find? (fun x => x.id == i) = none :=
      List.find?_eq_none.2 (fun a ha => by simpa using hall a ha)
    rw [hn] at h
    exact Option.noConfusion h
  · have hfc : lib.find? (fun x => x.id == i) = some c := by
      rw [hd]; exact find?_decomp pre c suf i hp hc
    rw [h] at hfc
    obtain rfl : b = c := Option.some.injEq _ _ ▸ hfc.symm ▸ rfl
    exact ⟨pre, suf, hd, hp, hc, heq⟩

/-- Removing the matches of a predicate shortens a list by their count. -/
theorem length_filter_not_beq (lib : List Book) (i : Int) :
    (lib.filter (fun b => !(b.id == i))).length
      + lib.countP (fun b => b.id == i) = lib.length := by
  induction lib with
  | nil => rfl
  | cons b rest ih =>
    by_cases hb : b.id = i
    · have : (b.id == i) = true := by simpa using hb
      simp [List.filter_cons, List.countP_cons, this]
      omega
    · have : (b.id == i) = false := by simpa using hb
      simp [List.filter_cons, List.countP_cons, this]
      omega

/-! ## Small facts about the operations, shared by several claims -/

theorem remove_book_library (s : LMState) (i : Int) :
    (remove_book s i).1.library = s.library.filter (fun b => !(b.id == i)) := by
  simp only [remove_book]
  split <;> rfl

theorem update_progress_nomatch (s : LMState) (i p td cm : Int)
    (hall : ∀ b ∈ s.library, b.id ≠ i) :
    update_progress s i p td cm = (s, false) := by
  rcases upl_cases s.library i p with ⟨_, heq⟩ | ⟨pre, c, suf, hd, _, hc, _⟩
  · simp [update_progress, heq]
  · exact absurd hc (hall c (by rw [hd]; simp))

theorem update_progress_library (s : LMState) (i p td cm : Int)
    (pre : List Book) (c : Book) (suf : List Book)
    (heq : update_progress_list s.library i p =
      (pre ++ updBook c p :: suf, true, (p == 100) && !c.read)) :
    (update_progress s i p td cm).1.library = pre ++ updBook c p :: suf ∧
    (update_progress s i p td cm).2 = true := by
  cases hflag : ((p == 100) && !c.read) <;>
    simp [update_progress, heq, hflag]

/-! ## C1 -/

/-- C1, counterexample: the claimed invariant `progress == 100 → read` is
NOT preserved by `update_progress` on a raw input greater than 100. From a
state satisfying the invariant (one unread book, progress 0), the call
`update_progress(1, 150)` succeeds, stores the clamped progress 100, but
leaves `read = false`, because line 126 of the source tests the RAW
argument (`progress == 100`), not the clamped value. -/
theorem C1_counterexample :
    libInv state1.library ∧
    (update_progress state1 1 150 0 1).2 = true ∧
    ¬ libInv (update_progress state1 1 150 0 1).1.library := by
  decide

/-- C1, amended: the invariant `progress == 100 → read == true` is
preserved by `load` (given file records satisfying it after defaulting),
by `add_book`, by `remove_book`, and by `update_progress` whenever the raw
input is at most 100; raw inputs greater than 100 can break it (the `read`
flag is gated by the raw argument being exactly 100, not by the clamped
value). -/
theorem C1_invariant_preservation :
    (∀ dataOpt : Option (List RawBook),
        (∀ r ∈ dataOpt.getD [], r.progress.getD 0 = 100 → r.read = true) →
        libInv (load_library dataOpt)) ∧
    (∀ (s : LMState) (t a : String) (y : Int) (g : String) (rd : Bool)
        (rt : Option Rat) (n : String) (c : Option String) (cy : Int)
        (iso : String), libInv s.library →
        libInv (add_book s t a y g rd rt n c cy iso).1.library) ∧
    (∀ (s : LMState) (i : Int), libInv s.library →
        libInv (remove_book s i).1.library) ∧
    (∀ (s : LMState) (i p td cm : Int), libInv s.library → p ≤ 100 →
        libInv (update_progress s i p td cm).1.library) := by
  refine ⟨?_, ?_, ?_, ?_⟩
  · intro dataOpt h b hb
    cases dataOpt with
    | none => simp [load_library] at hb
    | some data =>
      simp only [load_library, List.mem_map] at hb
      obtain ⟨r, hr, rfl⟩ := hb
      intro hprog
      exact h r (by simpa using hr) (by simpa [load_book] using hprog)
  · intro s t a y g rd rt n c cy iso hInv b hb
    simp only [add_book] at hb
    split at hb
    · exact hInv b hb
    · simp only [List.mem_append, List.mem_singleton] at hb
      rcases hb with hb | rfl
      · exact hInv b hb
      · intro hprog
        simp [newBook] at hprog
  · intro s i hInv b hb
    rw [remove_book_library] at hb
    exact hInv b (List.mem_of_mem_filter hb)
  · intro s i p td cm hInv hp b hb
    rcases upl_cases s.library i p with ⟨hall, _⟩ | ⟨pre, c, suf, hd, hpre, hc, heq⟩
    · rw [update_progress_nomatch s i p td cm hall] at hb
      exact hInv b hb
    · rw [(update_progress_library s i p td cm pre c suf heq).1] at hb
      rcases List.mem_append.1 hb with hb | hb
      · exact hInv b (by rw [hd]; exact List.mem_append.2 (Or.inl hb))
      · rcases List.mem_cons.1 hb with rfl | hb
        · exact updBook_inv c p hp
        · exact hInv b (by rw [hd]; simp [hb])

/-- C1, witness: the amended preservation theorem applied at concrete
inputs for each of the four operations. -/
theorem C1_invariant_preservation_witness :
    libInv (load_library (some [])) ∧
    libInv (add_book state1 "X" "Y" 2000 "Fiction" false none "" none
      2020 "t").1.library ∧
    libInv (remove_book state1 1).1.library ∧
    libInv (update_progress state1 1 50 0 1).1.library :=
  ⟨C1_invariant_preservation.1 (some []) (by decide),
   C1_invariant_preservation.2.1 state1 "X" "Y" 2000 "Fiction" false none ""
     none 2020 "t" (by decide),
   C1_invariant_preservation.2.2.1 state1 1 (by decide),
   C1_invariant_preservation.2.2.2 state1 1 50 0 1 (by decide) (by decide)⟩

/-! ## C2 -/

theorem update_progress_no_event_of_read (s : LMState) (i p td cm : Int)
    (b : Book) (h : findBook s i = some b) (hr : b.read = true) :
    (update_progress s i p td cm).1.completions = s.completions ∧
    (update_progress s i p td cm).1.user_data = s.user_data := by
  obtain ⟨pre, suf, hd, hpre, hc, heq⟩ := upl_found s.library i p b h
  have hflag : ((p == 100) && !b.read) = false := by simp [hr]
  rw [hflag] at heq
  simp [update_progress, heq]

theorem update_progress_no_event_of_ne (s : LMState) (i p td cm : Int)
    (b : Book) (h : findBook s i = some b) (hp : p ≠ 100) :
    (update_progress s i p td cm).1.completions = s.completions ∧
    (update_progress s i p td cm).1.user_data = s.user_data := by
  obtain ⟨pre, suf, hd, hpre, hc, heq⟩ := upl_found s.library i p b h
  have hflag : ((p == 100) && !b.read) = false := by simp [hp]
  rw [hflag] at heq
  simp [update_progress, heq]

/-- C2, counterexample: with the one unread book of `state1`, the call
`update_progress(1, 150)` has clamped value `min 100 (max 0 150) = 100`
and the record's `read` flag was `false`, yet NO completion event is
raised and `read` stays `false`: line 126 of the source compares the raw
argument with 100, not the clamped value. -/
theorem C2_counterexample :
    min 100 (max 0 (150 : Int)) = 100 ∧
    (∃ b, findBook state1 1 = some b ∧ b.read = false) ∧
    (update_progress state1 1 150 0 1).1.completions = state1.completions ∧
    (∃ b', findBook (update_progress state1 1 150 0 1).1 1 = some b' ∧
       b'.read = false) := by
  decide

/-- C2, amended: the completion event is gated by the RAW argument, not
the clamped value. For a found record: if the raw argument equals 100 and
the record was unread, exactly one completion event fires (streak then
monthly update on the user data), the library is persisted, the record
ends up read with progress 100, and a repeated call at 100 never
re-triggers completion; if the record was already read, or the raw
argument differs from 100 (even when the clamped value is 100), no event
fires and the user data is untouched. -/
theorem C2_completion_event (s : LMState) (i p td cm : Int) (b : Book)
    (h : findBook s i = some b) :
    (p = 100 → b.read = false →
       (update_progress s i p td cm).1.completions = s.completions + 1 ∧
       (update_progress s i p td cm).1.user_data =
         update_monthly_goal (update_reading_streak s.user_data td).1 cm ∧
       (update_progress s i p td cm).1.library_saves = s.library_saves + 1 ∧
       (∃ b', findBook (update_progress s i p td cm).1 i = some b' ∧
          b'.read = true ∧ b'.progress = 100) ∧
       (∀ td2 cm2,
          (update_progress (update_progress s i p td cm).1 i 100
            td2 cm2).1.completions
            = (update_progress s i p td cm).1.completions)) ∧
    (b.read = true →
       (update_progress s i p td cm).1.completions = s.completions ∧
       (update_progress s i p td cm).1.user_data = s.user_data) ∧
    (p ≠ 100 →
       (update_progress s i p td cm).1.completions = s.completions ∧
       (update_progress s i p td cm).1.user_data = s.user_data) := by
  refine ⟨?_, ?_, ?_⟩
  · intro hp hr
    obtain ⟨pre, suf, hd, hpre, hc, heq⟩ := upl_found s.library i p b h
    have hflag : ((p == 100) && !b.read) = true := by simp [hp, hr]
    rw [hflag] at heq
    have hfind2 : findBook (update_progress s i p td cm).1 i
        = some (updBook b p) := by
      have hlib : (update_progress s i p td cm).1.library
          = pre ++ updBook b p :: suf := by
        simp [update_progress, heq]
      unfold findBook
      rw [hlib]
      exact find?_decomp pre (updBook b p) suf i hpre
        (by rw [updBook_id]; exact hc)
    have hread2 : (updBook b p).read = true := by
      rw [updBook_read, hr, hp]
      simp
    refine ⟨?_, ?_, ?_, ⟨updBook b p, hfind2, hread2, ?_⟩, ?_⟩
    · simp [update_progress, heq]
    · simp [update_progress, heq]
    · simp [update_progress, heq]
    · rw [updBook_progress, hp]
      rfl
    · intro td2 cm2
      exact (update_progress_no_event_of_read (update_progress s i p td cm).1
        i 100 td2 cm2 (updBook b p) hfind2 hread2).1
  · intro hr
    exact update_progress_no_event_of_read s i p td cm b h hr
  · intro hp
    exact update_progress_no_event_of_ne s i p td cm b h hp

/-- C2, witness: one call at raw 100 on the unread book of `state1` fires
exactly one completion event. -/
theorem C2_completion_event_witness :
    (update_progress state1 1 100 0 1).1.completions
      = state1.completions + 1 :=
  ((C2_completion_event state1 1 100 0 1 bookA (by decide)).1 rfl rfl).1

/-! ## C3 -/

/-- C3: for any raw integer argument (negative or above 100 included) and
an existing record, `update_progress` succeeds and the stored progress of
that record equals `min 100 (max 0 p)`, hence lies in `[0, 100]`. -/
theorem C3_progress_clamped (s : LMState) (i p td cm : Int) (b : Book)
    (h : findBook s i = some b) :
    (update_progress s i p td cm).2 = true ∧
    ∃ b', findBook (update_progress s i p td cm).1 i = some b' ∧
      b'.progress = min 100 (max 0 p) ∧
      0 ≤ b'.progress ∧ b'.progress ≤ 100 := by
  obtain ⟨pre, suf, hd, hpre, hc, heq⟩ := upl_found s.library i p b h
  obtain ⟨hlib, hsucc⟩ := update_progress_library s i p td cm pre b suf heq
  refine ⟨hsucc, updBook b p, ?_, updBook_progress b p, ?_, ?_⟩
  · unfold findBook
    rw [hlib]
    exact find?_decomp pre (updBook b p) suf i hpre
      (by rw [updBook_id]; exact hc)
  · rw [updBook_progress]; omega
  · rw [updBook_progress]; omega

/-- C3, witness: a negative raw input on `state1` succeeds (and, by the
theorem, stores the clamp). -/
theorem C3_progress_clamped_witness :
    (update_progress state1 1 (-5) 0 1).2 = true :=
  (C3_progress_clamped state1 1 (-5) 0 1 bookA (by decide)).1

/-! ## C4 -/

/-- C4: `_update_reading_streak` — no prior date gives streak 1; the same
day changes nothing (state is returned untouched); exactly the next day
increments the streak; any other gap (longer, or a prior date in the
future) resets the streak to 1; and `last_reading_date` becomes today in
every branch except the same-day one. -/
theorem C4_streak_update (u : UserData) (today : Int) :
    (u.last_reading_date = none →
       (update_reading_streak u today).1.reading_streak = 1 ∧
       (update_reading_streak u today).1.last_reading_date = some today) ∧
    (∀ last, u.last_reading_date = some last →
       ((today = last → (update_reading_streak u today).1 = u) ∧
        (today = last + 1 →
          (update_reading_streak u today).1.reading_streak
            = u.reading_streak + 1 ∧
          (update_reading_streak u today).1.last_reading_date = some today) ∧
        (today ≠ last → today ≠ last + 1 →
          (update_reading_streak u today).1.reading_streak = 1 ∧
          (update_reading_streak u today).1.last_reading_date
            = some today))) := by
  constructor
  · intro hnone
    simp [update_reading_streak, hnone]
  · intro last hlast
    refine ⟨?_, ?_, ?_⟩
    · intro hsame
      simp [update_reading_streak, hlast, hsame]
    · intro hnext
      have hne : today ≠ last := by omega
      simp [update_reading_streak, hlast, hnext, hne]
    · intro h1 h2
      simp [update_reading_streak, hlast, h1, h2]

/-- C4, witness: the four streak branches at concrete inputs — fresh
state, next-day completion, two-day gap, same day. -/
theorem C4_streak_update_witness :
    (update_reading_streak userData0 5).1.reading_streak = 1 ∧
    (update_reading_streak
      { userData0 with reading_streak := 3, last_reading_date := some 4 }
      5).1.reading_streak = 3 + 1 ∧
    (update_reading_streak
      { userData0 with reading_streak := 3, last_reading_date := some 2 }
      5).1.reading_streak = 1 ∧
    (update_reading_streak
      { userData0 with reading_streak := 3, last_reading_date := some 5 }
      5).1
      = { userData0 with reading_streak := 3, last_reading_date := some 5 } :=
  ⟨((C4_streak_update userData0 5).1 rfl).1,
   (((C4_streak_update _ 5).2 4 rfl).2.1 rfl).1,
   (((C4_streak_update _ 5).2 2 rfl).2.2 (by decide) (by decide)).1,
   ((C4_streak_update _ 5).2 5 rfl).1 rfl⟩

/-! ## C5 -/

theorem update_reading_streak_monthly_frame (u : UserData) (td : Int) :
    (update_reading_streak u td).1.books_read_this_month
      = u.books_read_this_month ∧
    (update_reading_streak u td).1.month = u.month ∧
    (update_reading_streak u td).1.monthly_goal = u.monthly_goal := by
  cases h : u.last_reading_date with
  | none => simp [update_reading_streak, h]
  | some last =>
    simp only [update_reading_streak, h]
    split_ifs <;> simp

/-- C5: `_update_monthly_goal` — on a month rollover the counter is
zeroed and the month adopted before the increment, so the first completion
of a new month yields counter 1; within the same month the counter just
increments; and the monthly logic is independent of the streak outcome:
the streak step never touches the monthly fields, so the monthly result is
the same whatever the streak did. -/
theorem C5_monthly_goal_update (u : UserData) (cm : Int) :
    (u.month ≠ cm →
       (update_monthly_goal u cm).books_read_this_month = 1 ∧
       (update_monthly_goal u cm).month = cm) ∧
    (u.month = cm →
       (update_monthly_goal u cm).books_read_this_month
         = u.books_read_this_month + 1 ∧
       (update_monthly_goal u cm).month = cm) ∧
    ((update_monthly_goal u cm).reading_streak = u.reading_streak ∧
     (update_monthly_goal u cm).last_reading_date = u.last_reading_date ∧
     (update_monthly_goal u cm).monthly_goal = u.monthly_goal) ∧
    (∀ td,
       (update_monthly_goal (update_reading_streak u td).1
           cm).books_read_this_month
         = (update_monthly_goal u cm).books_read_this_month ∧
       (update_monthly_goal (update_reading_streak u td).1 cm).month
         = (update_monthly_goal u cm).month) := by
  refine ⟨?_, ?_, ?_, ?_⟩
  · intro hm
    simp [update_monthly_goal, hm]
  · intro hm
    simp [update_monthly_goal, hm]
  · by_cases hm : u.month = cm <;> simp [update_monthly_goal, hm]
  · intro td
    obtain ⟨hb, hmo, _⟩ := update_reading_streak_monthly_frame u td
    by_cases hm : u.month = cm <;>
      simp [update_monthly_goal, hb, hmo, hm]

/-- C5, witness: rolling from month 1 to month 2 after three completions
leaves the counter at 1; a same-month completion moves it from 3 to 4. -/
theorem C5_monthly_goal_update_witness :
    (update_monthly_goal
      { userData0 with books_read_this_month := 3, month := 1 }
      2).books_read_this_month = 1 ∧
    (update_monthly_goal
      { userData0 with books_read_this_month := 3, month := 1 }
      1).books_read_this_month = 3 + 1 :=
  ⟨((C5_monthly_goal_update _ 2).1 (by decide)).1,
   ((C5_monthly_goal_update _ 1).2.1 rfl).1⟩

/-! ## C6 -/

/-- C6: `add_book` with a whitespace-only title, a whitespace-only author,
or a year outside `[1000, current_calendar_year]` returns failure and the
new state is exactly the old one — same collection and same save counter,
i.e. no mutation and no persistence write. -/
theorem C6_add_invalid (s : LMState) (t a : String) (y : Int) (g : String)
    (rd : Bool) (rt : Option Rat) (n : String) (c : Option String)
    (cy : Int) (iso : String)
    (h : pyStrip t = "" ∨ pyStrip a = "" ∨ y < 1000 ∨ cy < y) :
    add_book s t a y g rd rt n c cy iso = (s, false) := by
  have hc : pyStrip t = "" ∨ pyStrip a = "" ∨ ¬(1000 ≤ y ∧ y ≤ cy) := by
    rcases h with h | h | h | h
    · exact Or.inl h
    · exact Or.inr (Or.inl h)
    · exact Or.inr (Or.inr (by omega))
    · exact Or.inr (Or.inr (by omega))
  unfold add_book
  rw [if_pos hc]

/-- C6, witness: an empty title and an out-of-range year each leave
`state1` untouched and unreported. -/
theorem C6_add_invalid_witness :
    add_book state1 "" "Auth" 2000 "Fiction" false none "" none 2020 "t"
      = (state1, false) ∧
    add_book state1 "T" "Auth" 2030 "Fiction" false none "" none 2020 "t"
      = (state1, false) :=
  ⟨C6_add_invalid state1 "" "Auth" 2000 "Fiction" false none "" none 2020 "t"
     (Or.inl (by decide)),
   C6_add_invalid state1 "T" "Auth" 2030 "Fiction" false none "" none 2020 "t"
     (Or.inr (Or.inr (Or.inr (by decide))))⟩

/-! ## C7 -/

/-- C7: a valid `add_book` succeeds, and the appended record has id
`len + 1` (strictly above the current collection size), progress 0, and is
in the `listAll` snapshot immediately after, at the end of the order. -/
theorem C7_add_valid (s : LMState) (t a : String) (y : Int) (g : String)
    (rd : Bool) (rt : Option Rat) (n : String) (c : Option String)
    (cy : Int) (iso : String)
    (h1 : pyStrip t ≠ "") (h2 : pyStrip a ≠ "") (h3 : 1000 ≤ y)
    (h4 : y ≤ cy) :
    (add_book s t a y g rd rt n c cy iso).2 = true ∧
    ∃ b : Book,
      listAll (add_book s t a y g rd rt n c cy iso).1 = listAll s ++ [b] ∧
      b.id = (s.library.length : Int) + 1 ∧
      (s.library.length : Int) < b.id ∧
      b.progress = 0 ∧
      b ∈ listAll (add_book s t a y g rd rt n c cy iso).1 := by
  have hc : ¬(pyStrip t = "" ∨ pyStrip a = "" ∨ ¬(1000 ≤ y ∧ y ≤ cy)) := by
    push_neg
    exact ⟨h1, h2, h3, h4⟩
  constructor
  · unfold add_book
    rw [if_neg hc]
  · refine ⟨newBook s t a y g rd rt n c iso, ?_, rfl, lt_add_one _, rfl, ?_⟩
    · unfold add_book listAll
      rw [if_neg hc]
    · unfold add_book listAll
      rw [if_neg hc]
      simp

/-- C7, witness: adding a valid book to `state1` succeeds. -/
theorem C7_add_valid_witness :
    (add_book state1 "T" "Auth" 2000 "Fiction" false none "" none
      2020 "t").2 = true :=
  (C7_add_valid state1 "T" "Auth" 2000 "Fiction" false none "" none 2020 "t"
    (by decide) (by decide) (by decide) (by decide)).1

/-! ## C8 -/

/-- C8, counterexample: through operations alone — add two books
(ids 1, 2), remove id 1, add again (the new book gets id
`len + 1 = 2`) — a collection of two records both carrying id 2 is
reached. `remove_book 2` then returns success but shrinks the collection
by 2, not by exactly 1 as the claim states. -/
theorem C8_counterexample :
    dupState.library.map Book.id = [2, 2] ∧
    (remove_book dupState 2).2 = true ∧
    dupState.library.length = 2 ∧
    (remove_book dupState 2).1.library.length = 0 := by
  refine ⟨rfl, rfl, rfl, rfl⟩

/-- C8, amended: removing a non-existent id returns failure with the state
exactly unchanged; removing an existing id returns success, removes EVERY
record with that id — the length drops by the number of such records, at
least 1, and exactly 1 precisely when the id occurs once (length-derived
ids can collide after removals, §9) — and afterwards the id appears
nowhere in the snapshot. -/
theorem C8_remove (s : LMState) (i : Int) :
    ((∀ b ∈ s.library, b.id ≠ i) → remove_book s i = (s, false)) ∧
    ((∃ b ∈ s.library, b.id = i) →
       (remove_book s i).2 = true ∧
       (remove_book s i).1.library.length
           + s.library.countP (fun b => b.id == i) = s.library.length ∧
       1 ≤ s.library.countP (fun b => b.id == i) ∧
       (∀ b ∈ listAll (remove_book s i).1, b.id ≠ i)) := by
  constructor
  · intro hall
    have hfilter : s.library.filter (fun b => !(b.id == i)) = s.library :=
      List.filter_eq_self.2 (fun b hb => by simpa using hall b hb)
    simp only [remove_book, hfilter]
    rw [if_neg (lt_irrefl _)]
  · rintro ⟨b, hb, hbid⟩
    have hcount : 0 < s.library.countP (fun x => x.id == i) :=
      List.countP_pos_iff.2 ⟨b, hb, by simpa using hbid⟩
    have hlen := length_filter_not_beq s.library i
    have hlt : (s.library.filter (fun x => !(x.id == i))).length
        < s.library.length := by omega
    have hres : remove_book s i =
        ({ s with library := s.library.filter (fun x => !(x.id == i)),
                  library_saves := s.library_saves + 1 }, true) := by
      simp only [remove_book]
      rw [if_pos hlt]
    rw [hres]
    refine ⟨rfl, by simpa using hlen, by omega, ?_⟩
    intro x hx
    simp only [listAll, List.mem_filter] at hx
    simpa using hx.2

/-- C8, witness: on `state1`, removing id 1 succeeds and removing the
absent id 2 fails with the state unchanged. -/
theorem C8_remove_witness :
    (remove_book state1 1).2 = true ∧
    remove_book state1 2 = (state1, false) :=
  ⟨((C8_remove state1 1).2 ⟨bookA, by decide, by decide⟩).1,
   (C8_remove state1 2).1 (by decide)⟩

/-! ## C9 -/

/-- C9: `get_achievements` is a function of the TOTAL record count alone
(the `read` flags never enter): each badge appears once its threshold
(5 / 20 / 50) is met, and the result lists the earned badges in the
table's declared order. -/
theorem C9_achievements_by_count (s : LMState) :
    get_achievements s =
      (if 5 ≤ s.library.length then ["🏆 Novice Reader"] else []) ++
      (if 20 ≤ s.library.length then ["🐛 Book Worm"] else []) ++
      (if 50 ≤ s.library.length then ["📚 Literary Master"] else []) := by
  by_cases h5 : 5 ≤ s.library.length <;>
  by_cases h20 : 20 ≤ s.library.length <;>
  by_cases h50 : 50 ≤ s.library.length <;>
    simp [get_achievements, ACHIEVEMENTS, h5, h20, h50]

/-! ## C10 -/

/-- C10: a successful `update_progress` preserves the collection's length
and order, and mutates only the position `k` of the TARGETED record: the
record at `k` carries the requested id and every earlier position does
not (it is the first match, the one the loop touches). Every record at a
position other than `k` is untouched, and at `k` at most `progress` and
`read` change — id, title, author, year, genre, rating, notes, added_date
and cover_image are all unchanged. -/
theorem C10_update_frame (s : LMState) (i p td cm : Int)
    (h : (update_progress s i p td cm).2 = true) :
    (update_progress s i p td cm).1.library.length = s.library.length ∧
    ∃ k : Nat, k < s.library.length ∧
      (∀ b, s.library[k]? = some b → b.id = i) ∧
      (∀ j : Nat, j < k → ∀ b, s.library[j]? = some b → b.id ≠ i) ∧
      (∀ j : Nat, j ≠ k →
        (update_progress s i p td cm).1.library[j]? = s.library[j]?) ∧
      (∀ b b', s.library[k]? = some b →
        (update_progress s i p td cm).1.library[k]? = some b' →
        b'.id = b.id ∧ b'.title = b.title ∧ b'.author = b.author ∧
        b'.year = b.year ∧ b'.genre = b.genre ∧ b'.rating = b.rating ∧
        b'.notes = b.notes ∧ b'.added_date = b.added_date ∧
        b'.cover_image = b.cover_image) := by
  rcases upl_cases s.library i p with ⟨hall, _⟩ | ⟨pre, c, suf, hd, hpre, hc, heq⟩
  · rw [update_progress_nomatch s i p td cm hall] at h
    simp at h
  · have hlib := (update_progress_library s i p td cm pre c suf heq).1
    have hk : pre.length < s.library.length := by
      rw [hd]; simp
    refine ⟨?_, pre.length, hk, ?_, ?_, ?_, ?_⟩
    · rw [hlib, hd]; simp
    · intro b hb
      rw [hd, List.getElem?_append_right (le_refl pre.length),
          Nat.sub_self, List.getElem?_cons_zero] at hb
      obtain rfl : c = b := Option.some.inj hb
      exact hc
    · intro j hj b hb
      rw [hd, List.getElem?_append_left hj] at hb
      exact hpre b (List.getElem?_mem hb)
    · intro j hj
      rw [hlib, hd]
      rcases Nat.lt_or_ge j pre.length with hjk | hjk
      · rw [List.getElem?_append_left hjk, List.getElem?_append_left hjk]
      · have hjk2 : pre.length < j := lt_of_le_of_ne hjk (fun he => hj he.symm)
        rw [List.getElem?_append_right hjk, List.getElem?_append_right hjk]
        obtain ⟨m, hm⟩ : ∃ m, j - pre.length = m + 1 :=
          ⟨j - pre.length - 1, by omega⟩
        rw [hm, List.getElem?_cons_succ, List.getElem?_cons_succ]
    · intro b b' hb hb'
      rw [hd] at hb
      rw [hlib] at hb'
      rw [List.getElem?_append_right (le_refl pre.length)] at hb hb'
      rw [Nat.sub_self, List.getElem?_cons_zero] at hb hb'
      obtain rfl : c = b := Option.some.inj hb
      obtain rfl : updBook c p = b' := Option.some.inj hb'
      obtain ⟨ht, ha, hy, hg, hr, hn, hdt, hcv⟩ := updBook_frame c p
      exact ⟨updBook_id c p, ht, ha, hy, hg, hr, hn, hdt, hcv⟩

/-- C10, witness: a successful call on `state1` keeps the collection
length. -/
theorem C10_update_frame_witness :
    (update_progress state1 1 50 0 1).1.library.length
      = state1.library.length :=
  (C10_update_frame state1 1 50 0 1 (by decide)).1
